import Mathlib

/-!
Verification of the transaction-kernel stack interface of miden-base
(`miden-lib/src/transaction/mod.rs`): the input-stack builder, the
output-stack builder/parser pair, and the transaction-outputs assembler
`from_transaction_parts`.

Machine integers are modelled as `Nat` with explicit `% 2^w` where the
source truncates; fallible code returns `Option`/`Except`.  A source-level
panic (an `assert!`/`expect` firing) is modelled as the `none` outcome of
an `Option`-valued function, distinct from a returned `Except.error`.
-/

/-- Modulus of the Miden base field (Goldilocks): every stack element is a
residue below this value. -/
def FELT_MODULUS : Nat := 2 ^ 64 - 2 ^ 32 + 1

/-- Field elements are modelled as natural numbers (residues). -/
abbrev Felt := Nat

/-- A `Word` / `Digest` is a fixed 4-element value over the field, compared
element-wise.  Fields `w0 .. w3` are the canonical element order. -/
structure Word where
  w0 : Felt
  w1 : Felt
  w2 : Felt
  w3 : Felt
deriving DecidableEq

/-- A digest is a 4-element hash word; in the source `Digest` iterates and
exposes its elements in canonical order. -/
abbrev Digest := Word

/-- The elements of a word in canonical order, as produced by iterating a
`Digest` or calling `as_elements` in the source. -/
def Word.toList (w : Word) : List Felt := [w.w0, w.w1, w.w2, w.w3]

/-- The all-zero word constant `EMPTY_WORD`. -/
def EMPTY_WORD : Word := ⟨0, 0, 0, 0⟩

/-- An account id converts to a single stack element (`acct_id.into()`). -/
abbrev AccountId := Felt

/-- Stack inputs: the ordered sequence of field elements handed to the VM.
The external `StackInputs::new` wraps the vector built by the caller; the
claims are about that element sequence in append order. -/
structure StackInputs where
  values : List Felt
deriving DecidableEq

/-- Stack outputs as produced by the external VM: the 16 stack elements in
top-first order plus the overflow-table addresses. -/
structure StackOutputs where
  stack : List Felt
  overflow_addrs : List Felt
deriving DecidableEq

/-- External `StackOutputs::new`: rejects more than 16 stack elements,
otherwise pads the element vector with zeros up to the fixed width 16. -/
def StackOutputs.new (stack : List Felt) (overflow_addrs : List Felt) :
    Option StackOutputs :=
  if stack.length ≤ 16 then
    some ⟨stack ++ List.replicate (16 - stack.length) 0, overflow_addrs⟩
  else
    none

/-- External `StackOutputs::get_stack_item`: the element at position `idx`
from the top of the stack, if present. -/
def StackOutputs.get_stack_item (s : StackOutputs) (idx : Nat) : Option Felt :=
  s.stack.get? idx

/-- External `StackOutputs::get_stack_word`: reads the four elements at
positions `idx .. idx+3` and reverses them, so that the returned word is in
canonical element order (the stack stores words top-first). -/
def StackOutputs.get_stack_word (s : StackOutputs) (idx : Nat) : Option Word :=
  match s.get_stack_item idx, s.get_stack_item (idx + 1),
      s.get_stack_item (idx + 2), s.get_stack_item (idx + 3) with
  | some e0, some e1, some e2, some e3 => some ⟨e3, e2, e1, e0⟩
  | _, _, _, _ => none

/-- External `StackOutputs::has_overflow`: true when the overflow-address
list is non-empty. -/
def StackOutputs.has_overflow (s : StackOutputs) : Bool :=
  !s.overflow_addrs.isEmpty

/-- The advice map: a key-value store from digests to element sequences,
modelled as an association list; `get` returns the first binding. -/
structure AdviceMap where
  entries : List (Digest × List Felt)

/-- External `AdviceMap::get`: lookup of the value registered under a
digest key. -/
def AdviceMap.get (m : AdviceMap) (key : Digest) : Option (List Felt) :=
  (m.entries.find? (fun e => e.1 == key)).map (fun e => e.2)

/-- Modelled from the spec: the account-error cause carried by
`FinalAccountStubDataInvalid` when the advice data does not match the
expected stub shape/field count (the defining module `outputs.rs` is outside
the provided sources). -/
inductive AccountError where
  | StubDataIncorrectLength (actual : Nat) (expected : Nat)
deriving DecidableEq

/-- The transaction-output error type (`TransactionOutputError` in
`miden_objects`), with the variants this module produces or propagates. -/
inductive TransactionOutputError where
  | DuplicateOutputNote (note_id : Nat)
  | FinalAccountDataNotFound
  | FinalAccountStubDataInvalid (cause : AccountError)
  | OutputNotesCommitmentInconsistent (expected : Digest) (actual : Digest)
  | OutputStackInvalid (msg : String)
deriving DecidableEq

/-- Modelled from the spec: a single output note, owned by the caller and
already validated individually; it is identified by a note id and carries
metadata (the concrete note type lives in `miden_objects`, outside the
provided sources). -/
structure OutputNote where
  note_id : Nat
  metadata : Word
deriving DecidableEq

/-- A validated collection of output notes. -/
structure OutputNotes where
  notes : List OutputNote
deriving DecidableEq

/-- First note id that repeats in the list, scanning left to right with the
set of ids seen so far. -/
def firstDuplicateId : List Nat → List Nat → Option Nat
  | [], _ => none
  | x :: xs, seen => if x ∈ seen then some x else firstDuplicateId xs (x :: seen)

/-- Modelled from the spec: `OutputNotes::new` validates the caller-supplied
collection (structural/duplicate constraints) and fails with a
duplicate-note error surfaced unchanged; on success it wraps the list. -/
def OutputNotes.new (notes : List OutputNote) :
    Except TransactionOutputError OutputNotes :=
  match firstDuplicateId (notes.map (fun n => n.note_id)) [] with
  | some i => .error (.DuplicateOutputNote i)
  | none => .ok ⟨notes⟩

/-- One absorption step of the stand-in commitment fold. -/
def noteAbsorb (acc : Word) (n : OutputNote) : Word :=
  ⟨(acc.w0 * 3 + n.note_id + 1) % FELT_MODULUS,
   (acc.w1 * 3 + n.metadata.w0) % FELT_MODULUS,
   (acc.w2 * 3 + n.metadata.w1) % FELT_MODULUS,
   (acc.w3 * 3 + n.metadata.w2) % FELT_MODULUS⟩

/-- Modelled from the spec: the aggregate commitment over an output-notes
collection.  The concrete function is an external cryptographic sequential
hash (outside the provided sources); it is modelled here as a deterministic
computable fold over the notes, with the empty collection committing to the
all-zero word as in the source system. -/
def OutputNotes.commitment (ns : OutputNotes) : Digest :=
  ns.notes.foldl noteAbsorb EMPTY_WORD

/-- Modelled from the spec: the final account stub — the structured
post-transaction account state decoded from advice-map words (id and nonce,
vault root, storage root, code root). -/
structure AccountStub where
  id_and_nonce : Word
  vault_root : Word
  storage_root : Word
  code_root : Word
deriving DecidableEq

/-- The final transaction outputs: the decoded account stub together with
the validated output-notes collection. -/
structure TransactionOutputs where
  account : AccountStub
  output_notes : OutputNotes
deriving DecidableEq

/-- Groups a flat element list into consecutive 4-element words (total on
lists whose length is a multiple of 4; trailing fragments are dropped). -/
def groupWords : List Felt → List Word
  | a :: b :: c :: d :: rest => ⟨a, b, c, d⟩ :: groupWords rest
  | _ => []

/-- External `group_slice_elements` (`miden_objects::utils`): reinterprets a
flat buffer as 4-element chunks.  The source asserts that the length is
divisible by 4 and panics otherwise; the panic is modelled as `none`. -/
def group_slice_elements (source : List Felt) : Option (List Word) :=
  if source.length % 4 = 0 then some (groupWords source) else none

/-- Modelled from the spec: `parse_final_account_stub` (in `outputs.rs`,
outside the provided sources) decodes the grouped advice words into a final
account stub and fails when the data does not match the expected stub
shape/field count — exactly 4 words of well-formed account-stub data decode
successfully. -/
def parse_final_account_stub (elements : List Word) :
    Except AccountError AccountStub :=
  match elements with
  | [a, b, c, d] => .ok ⟨a, b, c, d⟩
  | _ => .error (.StubDataIncorrectLength elements.length 4)

/-- Modelled from the spec: protocol constant — in the output stack layout
`[CNC, FAH]` the output-notes commitment is the first (top) word.  The
defining module `outputs.rs` is outside the provided sources. -/
def OUTPUT_NOTES_COMMITMENT_WORD_IDX : Nat := 0

/-- Modelled from the spec: protocol constant — in the output stack layout
`[CNC, FAH]` the final account hash is the second word.  The defining
module `outputs.rs` is outside the provided sources. -/
def FINAL_ACCOUNT_HASH_WORD_IDX : Nat := 1

namespace TransactionKernel

/-- `TransactionKernel::build_input_stack`: appends, in order, the kernel
hash (4 elements), the kernel procedure count cast to `u16` and lifted to a
field element, the input-notes hash (4), the initial account hash (4), the
account id (1) and the block hash (4).  `StackInputs::new` wraps the
resulting 18-element vector. -/
def build_input_stack (acct_id : AccountId) (init_acct_hash : Digest)
    (input_notes_hash : Digest) (block_hash : Digest)
    (kernel : Nat × Digest) : StackInputs :=
  ⟨kernel.2.toList ++ [kernel.1 % 2 ^ 16] ++ input_notes_hash.toList
    ++ init_acct_hash.toList ++ [acct_id] ++ block_hash.toList⟩

/-- `TransactionKernel::build_output_stack`: lays out the final account hash
then the output-notes hash, reverses the 8-element vector, and builds a
stack output with an empty overflow list.  The `expect` on
`StackOutputs::new` never fires (8 ≤ 16); its hypothetical panic value is
the `getD` default. -/
def build_output_stack (final_acct_hash : Digest) (output_notes_hash : Digest) :
    StackOutputs :=
  (StackOutputs.new
      ((final_acct_hash.toList ++ output_notes_hash.toList).reverse) []).getD
    ⟨[], []⟩

/-- Error message of the first cleanliness check. -/
def thirdWordMsg : String :=
  "Third word on output stack should consist only of ZEROs"

/-- Error message of the second cleanliness check. -/
def fourthWordMsg : String :=
  "Fourth word on output stack should consist only of ZEROs"

/-- Error message of the overflow check. -/
def overflowMsg : String :=
  "Output stack should not have overflow addresses"

/-- `TransactionKernel::parse_output_stack`: reads the output-notes
commitment and final-account-hash words at their fixed positions (the
`expect`s on missing words are modelled as `none`), then checks, in order,
that the word at element offset 8 is zero, that the word at element offset
12 is zero, and that there is no overflow; on success returns
`(final_account_hash, output_notes_hash)`. -/
def parse_output_stack (stack : StackOutputs) :
    Option (Except TransactionOutputError (Digest × Digest)) :=
  match stack.get_stack_word (OUTPUT_NOTES_COMMITMENT_WORD_IDX * 4) with
  | none => none
  | some output_notes_hash =>
    match stack.get_stack_word (FINAL_ACCOUNT_HASH_WORD_IDX * 4) with
    | none => none
    | some final_account_hash =>
      match stack.get_stack_word 8 with
      | none => none
      | some w8 =>
        if w8 ≠ EMPTY_WORD then
          some (.error (.OutputStackInvalid thirdWordMsg))
        else
          match stack.get_stack_word 12 with
          | none => none
          | some w12 =>
            if w12 ≠ EMPTY_WORD then
              some (.error (.OutputStackInvalid fourthWordMsg))
            else if stack.has_overflow then
              some (.error (.OutputStackInvalid overflowMsg))
            else
              some (.ok (final_account_hash, output_notes_hash))

/-- `TransactionKernel::from_transaction_parts`: parses the output stack,
resolves and decodes the final account stub from the advice map (the
`group_slice_elements` assertion panic is modelled as `none`), validates the
caller-supplied output notes, and cross-checks the notes commitment against
the stack-asserted value before assembling `TransactionOutputs`. -/
def from_transaction_parts (stack : StackOutputs) (adv_map : AdviceMap)
    (output_notes : List OutputNote) :
    Option (Except TransactionOutputError TransactionOutputs) :=
  match parse_output_stack stack with
  | none => none
  | some (.error e) => some (.error e)
  | some (.ok (final_acct_hash, output_notes_hash)) =>
    match adv_map.get final_acct_hash with
    | none => some (.error .FinalAccountDataNotFound)
    | some elems =>
      match group_slice_elements elems with
      | none => none
      | some final_account_data =>
        match parse_final_account_stub final_account_data with
        | .error cause => some (.error (.FinalAccountStubDataInvalid cause))
        | .ok account =>
          match OutputNotes.new output_notes with
          | .error e => some (.error e)
          | .ok notes =>
            if output_notes_hash ≠ notes.commitment then
              some (.error (.OutputNotesCommitmentInconsistent
                output_notes_hash notes.commitment))
            else
              some (.ok ⟨account, notes⟩)

end TransactionKernel

open TransactionKernel

/-- C1: `build_input_stack` produces exactly 18 field elements laid out, in
append order, as kernel hash (4), kernel procedure count (1, cast to `u16`
and lifted), input-notes hash (4), initial account hash (4), account id
(1), block hash (4); in particular, for account id 7, zero initial hash,
notes digest D1, block hash D2 and kernel (3, D3), the sequence is
D3 ++ [3] ++ D1 ++ zero word ++ [7] ++ D2. -/
theorem build_input_stack_layout (acct_id : AccountId)
    (init_acct_hash input_notes_hash block_hash kernelHash D1 D2 D3 : Digest)
    (count : Nat) :
    (build_input_stack acct_id init_acct_hash input_notes_hash block_hash
        (count, kernelHash)).values
      = kernelHash.toList ++ [count % 2 ^ 16] ++ input_notes_hash.toList
        ++ init_acct_hash.toList ++ [acct_id] ++ block_hash.toList
    ∧ (build_input_stack acct_id init_acct_hash input_notes_hash block_hash
        (count, kernelHash)).values.length = 18
    ∧ (build_input_stack 7 EMPTY_WORD D1 D2 (3, D3)).values
      = D3.toList ++ [3] ++ D1.toList ++ EMPTY_WORD.toList ++ [7] ++ D2.toList :=
  ⟨rfl, rfl, rfl⟩

/-- C10: the count element placed at index 4 of the input stack equals the
kernel procedure count reduced modulo 2^16, and two kernels whose counts
agree modulo 65536 produce identical input stacks. -/
theorem build_input_stack_count_truncation (acct_id : AccountId)
    (init_acct_hash input_notes_hash block_hash kernelHash : Digest)
    (count c1 c2 : Nat) :
    (build_input_stack acct_id init_acct_hash input_notes_hash block_hash
        (count, kernelHash)).values.get? 4 = some (count % 2 ^ 16)
    ∧ (c1 % 2 ^ 16 = c2 % 2 ^ 16 →
        build_input_stack acct_id init_acct_hash input_notes_hash block_hash
            (c1, kernelHash)
          = build_input_stack acct_id init_acct_hash input_notes_hash block_hash
            (c2, kernelHash)) := by
  constructor
  · rfl
  · intro h
    norm_num at h
    simp [build_input_stack, h]

/-- Witness for C10 at concrete inputs: the count 65539 is truncated to 3,
and counts 65541 and 5 yield identical stacks. -/
theorem build_input_stack_count_truncation_witness :
    (build_input_stack 0 EMPTY_WORD EMPTY_WORD EMPTY_WORD
        (65539, EMPTY_WORD)).values.get? 4 = some 3
    ∧ build_input_stack 0 EMPTY_WORD EMPTY_WORD EMPTY_WORD (65541, EMPTY_WORD)
      = build_input_stack 0 EMPTY_WORD EMPTY_WORD EMPTY_WORD (5, EMPTY_WORD) := by
  constructor
  · have h := (build_input_stack_count_truncation 0 EMPTY_WORD EMPTY_WORD
      EMPTY_WORD EMPTY_WORD 65539 0 0).1
    simpa using h
  · exact (build_input_stack_count_truncation 0 EMPTY_WORD EMPTY_WORD
      EMPTY_WORD EMPTY_WORD 0 65541 5).2 (by norm_num)

/-- C6: `build_output_stack` emits the reversal of the 8-element
concatenation of the final account hash and the output-notes hash (element
i of the emitted stack equals element 7 - i of the concatenation, for
i < 8), and the overflow list of the returned stack output is empty. -/
theorem build_output_stack_layout (a b : Digest) (i : Nat) (hi : i < 8) :
    (build_output_stack a b).stack.get? i
      = (a.toList ++ b.toList).get? (7 - i)
    ∧ (build_output_stack a b).overflow_addrs = [] := by
  obtain ⟨a0, a1, a2, a3⟩ := a
  obtain ⟨b0, b1, b2, b3⟩ := b
  refine ⟨?_, rfl⟩
  interval_cases i <;> rfl

/-- Witness for C6: the layout property at i = 0 on concrete digests. -/
theorem build_output_stack_layout_witness :
    (build_output_stack ⟨1, 2, 3, 4⟩ ⟨5, 6, 7, 8⟩).stack.get? 0
      = ((⟨1, 2, 3, 4⟩ : Word).toList ++ (⟨5, 6, 7, 8⟩ : Word).toList).get? 7
    ∧ (build_output_stack ⟨1, 2, 3, 4⟩ ⟨5, 6, 7, 8⟩).overflow_addrs = [] :=
  build_output_stack_layout ⟨1, 2, 3, 4⟩ ⟨5, 6, 7, 8⟩ 0 (by decide)

/-- C3: round-trip law — parsing the stack built by `build_output_stack`
from a pair of digests succeeds and returns exactly that pair, final
account hash first. -/
theorem parse_build_output_stack_roundtrip (a b : Digest) :
    parse_output_stack (build_output_stack a b) = some (.ok (a, b)) := by
  obtain ⟨a0, a1, a2, a3⟩ := a
  obtain ⟨b0, b1, b2, b3⟩ := b
  rfl

/-- C2: on any stack output wide enough that the four words at element
offsets 0, 4, 8, 12 exist, `parse_output_stack` fails exactly when the word
at offset 8 is non-zero, the word at offset 12 is non-zero, or the overflow
region is non-empty; every failure is `OutputStackInvalid`; otherwise it
returns the words at offsets `FINAL_ACCOUNT_HASH_WORD_IDX * 4` and
`OUTPUT_NOTES_COMMITMENT_WORD_IDX * 4`; and the three checks fire in the
order offset-8 word, offset-12 word, overflow, as witnessed by the
messages. -/
theorem parse_output_stack_spec (s : StackOutputs) (w0 w4 w8 w12 : Word)
    (h0 : s.get_stack_word (OUTPUT_NOTES_COMMITMENT_WORD_IDX * 4) = some w0)
    (h4 : s.get_stack_word (FINAL_ACCOUNT_HASH_WORD_IDX * 4) = some w4)
    (h8 : s.get_stack_word 8 = some w8)
    (h12 : s.get_stack_word 12 = some w12) :
    ((∃ e, parse_output_stack s = some (.error e)) ↔
      (w8 ≠ EMPTY_WORD ∨ w12 ≠ EMPTY_WORD ∨ s.has_overflow = true))
    ∧ (∀ e, parse_output_stack s = some (.error e) →
        ∃ msg, e = .OutputStackInvalid msg)
    ∧ ((w8 = EMPTY_WORD ∧ w12 = EMPTY_WORD ∧ s.has_overflow = false) →
        parse_output_stack s = some (.ok (w4, w0)))
    ∧ (w8 ≠ EMPTY_WORD →
        parse_output_stack s = some (.error (.OutputStackInvalid thirdWordMsg)))
    ∧ (w8 = EMPTY_WORD → w12 ≠ EMPTY_WORD →
        parse_output_stack s = some (.error (.OutputStackInvalid fourthWordMsg)))
    ∧ (w8 = EMPTY_WORD → w12 = EMPTY_WORD → s.has_overflow = true →
        parse_output_stack s = some (.error (.OutputStackInvalid overflowMsg))) := by
  by_cases e8 : w8 = EMPTY_WORD
  · by_cases e12 : w12 = EMPTY_WORD
    · cases hov : s.has_overflow
      · have hp : parse_output_stack s = some (.ok (w4, w0)) := by
          simp [parse_output_stack, h0, h4, h8, h12, e8, e12, hov]
        refine ⟨?_, ?_, ?_, ?_, ?_, ?_⟩ <;> simp [hp, e8, e12, hov]
      · have hp : parse_output_stack s
            = some (.error (.OutputStackInvalid overflowMsg)) := by
          simp [parse_output_stack, h0, h4, h8, h12, e8, e12, hov]
        refine ⟨?_, ?_, ?_, ?_, ?_, ?_⟩ <;> simp [hp, e8, e12, hov]
    · have hp : parse_output_stack s
          = some (.error (.OutputStackInvalid fourthWordMsg)) := by
        simp [parse_output_stack, h0, h4, h8, h12, e8, e12]
      refine ⟨?_, ?_, ?_, ?_, ?_, ?_⟩ <;> simp [hp, e8, e12]
  · have hp : parse_output_stack s
        = some (.error (.OutputStackInvalid thirdWordMsg)) := by
      simp [parse_output_stack, h0, h4, h8, e8]
    refine ⟨?_, ?_, ?_, ?_, ?_, ?_⟩ <;> simp [hp, e8]

/-- Witness for C2 on a concrete 16-element stack with a non-zero element
at offset 8: the parser fails with the third-word message. -/
theorem parse_output_stack_spec_witness :
    parse_output_stack
        ⟨[0, 0, 0, 0, 0, 0, 0, 0, 9, 0, 0, 0, 0, 0, 0, 0], []⟩
      = some (.error (.OutputStackInvalid thirdWordMsg)) :=
  (parse_output_stack_spec ⟨[0, 0, 0, 0, 0, 0, 0, 0, 9, 0, 0, 0, 0, 0, 0, 0], []⟩
      EMPTY_WORD EMPTY_WORD ⟨0, 0, 0, 9⟩ EMPTY_WORD
      rfl rfl rfl rfl).2.2.2.1 (by decide)

/-- C4: whenever the stack parses cleanly to a final account hash with no
advice-map entry under that hash, `from_transaction_parts` fails with
`FinalAccountDataNotFound`, for any caller-supplied output-notes list. -/
theorem from_transaction_parts_missing_advice
    (s : StackOutputs) (m : AdviceMap) (notes : List OutputNote)
    (fah onh : Digest)
    (hparse : parse_output_stack s = some (.ok (fah, onh)))
    (hget : m.get fah = none) :
    from_transaction_parts s m notes
      = some (.error .FinalAccountDataNotFound) := by
  simp [from_transaction_parts, hparse, hget]

/-- Witness for C4: a clean stack whose final account hash has no advice
entry yields `FinalAccountDataNotFound`. -/
theorem from_transaction_parts_missing_advice_witness :
    from_transaction_parts (build_output_stack ⟨1, 1, 1, 1⟩ ⟨2, 2, 2, 2⟩)
        ⟨[]⟩ [⟨5, EMPTY_WORD⟩]
      = some (.error .FinalAccountDataNotFound) :=
  from_transaction_parts_missing_advice
    (build_output_stack ⟨1, 1, 1, 1⟩ ⟨2, 2, 2, 2⟩) ⟨[]⟩ [⟨5, EMPTY_WORD⟩]
    ⟨1, 1, 1, 1⟩ ⟨2, 2, 2, 2⟩ rfl rfl

/-- C5: when the stack parses cleanly, the advice data is found, grouped
and decoded, and the output-notes collection is constructed, a mismatch
between the recomputed notes commitment and the stack-asserted one makes
`from_transaction_parts` fail with `OutputNotesCommitmentInconsistent`
carrying the stack value first and the recomputed value second. -/
theorem from_transaction_parts_commitment_mismatch
    (s : StackOutputs) (m : AdviceMap) (notes : List OutputNote)
    (fah onh : Digest) (elems : List Felt) (ws : List Word)
    (acct : AccountStub) (col : OutputNotes)
    (hparse : parse_output_stack s = some (.ok (fah, onh)))
    (hget : m.get fah = some elems)
    (hgroup : group_slice_elements elems = some ws)
    (hstub : parse_final_account_stub ws = .ok acct)
    (hnotes : OutputNotes.new notes = .ok col)
    (hne : onh ≠ col.commitment) :
    from_transaction_parts s m notes
      = some (.error (.OutputNotesCommitmentInconsistent onh col.commitment)) := by
  simp [from_transaction_parts, hparse, hget, hgroup, hstub, hnotes, hne]

/-- Witness for C5: a clean stack asserting a non-zero notes commitment
combined with an empty caller note list (whose commitment is the zero word)
gives the commitment-mismatch error with both values. -/
theorem from_transaction_parts_commitment_mismatch_witness :
    from_transaction_parts (build_output_stack ⟨1, 1, 1, 1⟩ ⟨2, 2, 2, 2⟩)
        ⟨[(⟨1, 1, 1, 1⟩, List.replicate 16 0)]⟩ []
      = some (.error (.OutputNotesCommitmentInconsistent ⟨2, 2, 2, 2⟩
          (OutputNotes.commitment ⟨[]⟩))) :=
  from_transaction_parts_commitment_mismatch
    (build_output_stack ⟨1, 1, 1, 1⟩ ⟨2, 2, 2, 2⟩)
    ⟨[(⟨1, 1, 1, 1⟩, List.replicate 16 0)]⟩ []
    ⟨1, 1, 1, 1⟩ ⟨2, 2, 2, 2⟩ (List.replicate 16 0)
    [EMPTY_WORD, EMPTY_WORD, EMPTY_WORD, EMPTY_WORD]
    ⟨EMPTY_WORD, EMPTY_WORD, EMPTY_WORD, EMPTY_WORD⟩ ⟨[]⟩
    rfl rfl rfl rfl rfl (by decide)

/-- C7 counterexample: an advice entry of length 3 (not a multiple of the
word size) reached through a clean stack does not produce a returned error:
the chunking assertion fires, modelled as the `none` (panic) outcome, so
the claimed checked behaviour fails at this concrete input. -/
theorem group_unchecked_counterexample :
    (([0, 0, 0] : List Felt).length % 4 ≠ 0)
    ∧ from_transaction_parts (build_output_stack ⟨1, 1, 1, 1⟩ ⟨2, 2, 2, 2⟩)
        ⟨[(⟨1, 1, 1, 1⟩, [0, 0, 0])]⟩ [] = none
    ∧ ¬ ∃ e, from_transaction_parts (build_output_stack ⟨1, 1, 1, 1⟩ ⟨2, 2, 2, 2⟩)
        ⟨[(⟨1, 1, 1, 1⟩, [0, 0, 0])]⟩ [] = some (.error e) := by
  have hnone : from_transaction_parts
      (build_output_stack ⟨1, 1, 1, 1⟩ ⟨2, 2, 2, 2⟩)
      ⟨[(⟨1, 1, 1, 1⟩, [0, 0, 0])]⟩ [] = none := rfl
  refine ⟨by decide, hnone, fun h => ?_⟩
  obtain ⟨e, he⟩ := h
  rw [hnone] at he
  exact Option.noConfusion he

/-- C7 amended: when the advice entry under the parsed final account hash
has a length that is not a multiple of 4, `from_transaction_parts` panics
(the assertion inside the unchecked chunking fires, modelled as `none`)
instead of returning an error. -/
theorem from_transaction_parts_group_panics
    (s : StackOutputs) (m : AdviceMap) (notes : List OutputNote)
    (fah onh : Digest) (elems : List Felt)
    (hparse : parse_output_stack s = some (.ok (fah, onh)))
    (hget : m.get fah = some elems)
    (hlen : elems.length % 4 ≠ 0) :
    from_transaction_parts s m notes = none := by
  simp [from_transaction_parts, hparse, hget, group_slice_elements, hlen]

/-- Witness for the amended C7: a 3-element advice entry makes the call
panic (modelled `none`). -/
theorem from_transaction_parts_group_panics_witness :
    from_transaction_parts (build_output_stack ⟨5, 5, 5, 5⟩ ⟨6, 6, 6, 6⟩)
        ⟨[(⟨5, 5, 5, 5⟩, [1, 2, 3])]⟩ [] = none :=
  from_transaction_parts_group_panics
    (build_output_stack ⟨5, 5, 5, 5⟩ ⟨6, 6, 6, 6⟩)
    ⟨[(⟨5, 5, 5, 5⟩, [1, 2, 3])]⟩ []
    ⟨5, 5, 5, 5⟩ ⟨6, 6, 6, 6⟩ [1, 2, 3] rfl rfl (by decide)

/-- C8: `from_transaction_parts` is deterministic — two invocations on
identical (stack, advice map, output notes) arguments produce identical
results; the embedding is a pure function of its arguments, mirroring the
source, which reads its borrowed inputs and carries no state. -/
theorem from_transaction_parts_deterministic
    (s1 s2 : StackOutputs) (m1 m2 : AdviceMap) (n1 n2 : List OutputNote)
    (hs : s1 = s2) (hm : m1 = m2) (hn : n1 = n2) :
    from_transaction_parts s1 m1 n1 = from_transaction_parts s2 m2 n2 := by
  rw [hs, hm, hn]

/-- Witness for C8 at a concrete invocation pair. -/
theorem from_transaction_parts_deterministic_witness :
    from_transaction_parts (build_output_stack ⟨1, 1, 1, 1⟩ ⟨2, 2, 2, 2⟩) ⟨[]⟩ []
      = from_transaction_parts (build_output_stack ⟨1, 1, 1, 1⟩ ⟨2, 2, 2, 2⟩)
        ⟨[]⟩ [] :=
  from_transaction_parts_deterministic
    (build_output_stack ⟨1, 1, 1, 1⟩ ⟨2, 2, 2, 2⟩)
    (build_output_stack ⟨1, 1, 1, 1⟩ ⟨2, 2, 2, 2⟩) ⟨[]⟩ ⟨[]⟩ [] []
    rfl rfl rfl

/-- C9: the failure conditions of `from_transaction_parts` fire in a fixed
precedence order — stack parse error, then missing advice data, then stub
decode error, then output-notes construction error, then commitment
mismatch — so when several conditions hold simultaneously the earliest one
in that order determines the returned error. -/
theorem from_transaction_parts_error_precedence
    (s : StackOutputs) (m : AdviceMap) (notes : List OutputNote) :
    (∀ e, parse_output_stack s = some (.error e) →
        from_transaction_parts s m notes = some (.error e))
    ∧ (∀ fah onh, parse_output_stack s = some (.ok (fah, onh)) →
        m.get fah = none →
        from_transaction_parts s m notes
          = some (.error .FinalAccountDataNotFound))
    ∧ (∀ fah onh elems ws cause,
        parse_output_stack s = some (.ok (fah, onh)) →
        m.get fah = some elems → group_slice_elements elems = some ws →
        parse_final_account_stub ws = .error cause →
        from_transaction_parts s m notes
          = some (.error (.FinalAccountStubDataInvalid cause)))
    ∧ (∀ fah onh elems ws acct e,
        parse_output_stack s = some (.ok (fah, onh)) →
        m.get fah = some elems → group_slice_elements elems = some ws →
        parse_final_account_stub ws = .ok acct →
        OutputNotes.new notes = .error e →
        from_transaction_parts s m notes = some (.error e))
    ∧ (∀ fah onh elems ws acct col,
        parse_output_stack s = some (.ok (fah, onh)) →
        m.get fah = some elems → group_slice_elements elems = some ws →
        parse_final_account_stub ws = .ok acct →
        OutputNotes.new notes = .ok col →
        onh ≠ col.commitment →
        from_transaction_parts s m notes
          = some (.error (.OutputNotesCommitmentInconsistent onh
              col.commitment))) := by
  refine ⟨?_, ?_, ?_, ?_, ?_⟩
  · intro e h
    simp [from_transaction_parts, h]
  · intro fah onh hp hg
    simp [from_transaction_parts, hp, hg]
  · intro fah onh elems ws cause hp hg hgr hstub
    simp [from_transaction_parts, hp, hg, hgr, hstub]
  · intro fah onh elems ws acct e hp hg hgr hstub hn
    simp [from_transaction_parts, hp, hg, hgr, hstub, hn]
  · intro fah onh elems ws acct col hp hg hgr hstub hn hne
    simp [from_transaction_parts, hp, hg, hgr, hstub, hn, hne]

/-- Witness for C9 on an input where three of the conditions hold at once
(missing advice entry, duplicate caller notes, and a commitment mismatch):
the earliest failure, `FinalAccountDataNotFound`, is returned. -/
theorem from_transaction_parts_error_precedence_witness :
    from_transaction_parts (build_output_stack ⟨3, 3, 3, 3⟩ ⟨4, 4, 4, 4⟩) ⟨[]⟩
        [⟨1, EMPTY_WORD⟩, ⟨1, EMPTY_WORD⟩]
      = some (.error .FinalAccountDataNotFound) :=
  (from_transaction_parts_error_precedence
      (build_output_stack ⟨3, 3, 3, 3⟩ ⟨4, 4, 4, 4⟩) ⟨[]⟩
      [⟨1, EMPTY_WORD⟩, ⟨1, EMPTY_WORD⟩]).2.1
    ⟨3, 3, 3, 3⟩ ⟨4, 4, 4, 4⟩ rfl rfl
